import Mathlib

/-!
Shallow embedding of the runtime validators of the topgg-api-types package
(zod/mini schemas in src/v1/index.ts, src/v1/types.ts and src/utils/validators.ts),
together with proofs about the validation behaviour they implement.

JSON values are modelled by the inductive `Json` below (numbers as rationals),
and each zod/mini schema is translated into an executable validator
`Path → Json → Except (List Issue) Json` that mirrors zod's parse semantics:
field-by-field validation with issue aggregation, unknown-key stripping,
checks (`.check(...)`) running only after the base parse succeeded, and the
discriminated union dispatching on the literal value of the `type` field.
-/

namespace TopggTypes

/-- JSON values: the inputs and the normalized outputs of the validators. -/
inductive Json where
  | null : Json
  | bool (b : Bool) : Json
  | num (q : Rat) : Json
  | str (s : String) : Json
  | arr (elems : List Json) : Json
  | obj (fields : List (String × Json)) : Json

/-- One step of a field path inside an error report. -/
inductive PathElem where
  | key (name : String)
  | idx (i : Nat)
deriving DecidableEq, Repr

abbrev Path := List PathElem

/-- The kinds of structured validation errors produced by the schemas. -/
inductive IssueKind where
  | invalidType (expected : String)
  | missingField
  | invalidFormat (format : String) (received : String)
  | invalidValue (received : String) (accepted : List String)
  | invalidLiteralNum (received : Rat) (expected : Rat)
  | custom (message : String)
  | unknownVariant (received : Option Json) (accepted : List String)
  | xorNotExactlyOne

/-- A structured validation error: a field path plus a reason. -/
structure Issue where
  path : Path
  kind : IssueKind

abbrev VResult := Except (List Issue) Json

abbrev Validator := Path → Json → VResult

/-- Whether a validation result is a success. -/
def isOkE {α : Type} : Except (List Issue) α → Bool
  | .ok _ => true
  | .error _ => false

/-- The issues of a validation result (empty on success). -/
def errorsOf {α : Type} : Except (List Issue) α → List Issue
  | .ok _ => []
  | .error es => es

/-- Key lookup in a JSON object (JS property access on a parsed JSON object). -/
def lookupField : List (String × Json) → String → Option Json
  | [], _ => none
  | (k, v) :: rest, name => if k = name then some v else lookupField rest name

mutual

/-- Boolean equality of JSON values, mirroring the SameValueZero comparison a
JS `Set` applies to its members (used by the duplicate check on `routes`). -/
def jsonEqb : Json → Json → Bool
  | .null, .null => true
  | .bool a, .bool b => a == b
  | .num a, .num b => a == b
  | .str a, .str b => a == b
  | .arr xs, .arr ys => jsonListEqb xs ys
  | .obj xs, .obj ys => jsonFieldsEqb xs ys
  | _, _ => false

/-- Pointwise `jsonEqb` on arrays. -/
def jsonListEqb : List Json → List Json → Bool
  | [], [] => true
  | x :: xs, y :: ys => jsonEqb x y && jsonListEqb xs ys
  | _, _ => false

/-- Pointwise `jsonEqb` on object entry lists. -/
def jsonFieldsEqb : List (String × Json) → List (String × Json) → Bool
  | [], [] => true
  | (k, v) :: xs, (l, w) :: ys => k == l && jsonEqb v w && jsonFieldsEqb xs ys
  | _, _ => false

end

/-- The number of distinct members of a list of JSON values:
the model of `new Set(arr).size` in the duplicate-scope refinement. -/
def countDistinct (xs : List Json) : Nat :=
  (xs.foldl (fun acc x => if acc.any (jsonEqb x) then acc else x :: acc) []).length

-- ## Validator combinators (the zod/mini primitives used by the schemas)

/-- Model of `z.string()`. -/
def pString : Validator := fun path v =>
  match v with
  | .str s => .ok (.str s)
  | _ => .error [⟨path, .invalidType "string"⟩]

/-- Model of `z.number()`. -/
def pNumber : Validator := fun path v =>
  match v with
  | .num q => .ok (.num q)
  | _ => .error [⟨path, .invalidType "number"⟩]

/-- Model of `z.boolean()`. -/
def pBoolean : Validator := fun path v =>
  match v with
  | .bool b => .ok (.bool b)
  | _ => .error [⟨path, .invalidType "boolean"⟩]

/-- A string schema with an attached format check
(`z.string().check(z.regex(...))`, `z.iso.date()`, `z.url()`). -/
def pStringCheck (chk : String → Bool) (fmt : String) : Validator := fun path v =>
  match v with
  | .str s => if chk s then .ok (.str s) else .error [⟨path, .invalidFormat fmt s⟩]
  | _ => .error [⟨path, .invalidType "string"⟩]

/-- Model of `z.enum([...])`: membership in a closed set of string literals. -/
def pEnum (accepted : List String) : Validator := fun path v =>
  match v with
  | .str s => if s ∈ accepted then .ok (.str s) else .error [⟨path, .invalidValue s accepted⟩]
  | _ => .error [⟨path, .invalidValue "non-string" accepted⟩]

/-- Model of `z.literal("...")` for a string literal. -/
def pLiteralStr (lit : String) : Validator := fun path v =>
  match v with
  | .str s => if s = lit then .ok (.str s) else .error [⟨path, .invalidValue s [lit]⟩]
  | _ => .error [⟨path, .invalidValue "non-string" [lit]⟩]

/-- Model of `z.literal(n)` for a numeric literal. -/
def pLiteralNum (lit : Rat) : Validator := fun path v =>
  match v with
  | .num q => if q = lit then .ok (.num q) else .error [⟨path, .invalidLiteralNum q lit⟩]
  | _ => .error [⟨path, .invalidType "number"⟩]

/-- One named field of a `z.object({...})` shape. -/
structure FieldSpec where
  name : String
  optional : Bool
  validator : Validator

/-- The contribution of one object field, given the looked-up value of its key:
run the field's schema (with the field's name appended to the error path) and
return the normalized entry; a missing required key is an error, a missing
optional key contributes nothing to the output. -/
def fieldResult (path : Path) (f : FieldSpec) :
    Option Json → Except (List Issue) (List (String × Json))
  | some v =>
    match f.validator (path ++ [.key f.name]) v with
    | .ok u => .ok [(f.name, u)]
    | .error es => .error es
  | none =>
    if f.optional then .ok [] else .error [⟨path ++ [.key f.name], .missingField⟩]

/-- Validate a single object field by key lookup. -/
def runField (path : Path) (o : List (String × Json)) (f : FieldSpec) :
    Except (List Issue) (List (String × Json)) :=
  fieldResult path f (lookupField o f.name)

/-- Validate every field of an object shape in declaration order, aggregating
the issues of all failing fields (zod does not stop at the first bad field). -/
def runFields (path : Path) (o : List (String × Json)) :
    List FieldSpec → Except (List Issue) (List (String × Json))
  | [] => .ok []
  | f :: fs =>
    match runField path o f, runFields path o fs with
    | .ok a, .ok b => .ok (a ++ b)
    | .error e, .ok _ => .error e
    | .ok _, .error e => .error e
    | .error e1, .error e2 => .error (e1 ++ e2)

/-- Model of `z.object({...})`: all fields must pass; unknown keys are stripped from
the output; on failure the full set of field issues is reported. -/
def pObject (fields : List FieldSpec) : Validator := fun path v =>
  match v with
  | .obj o =>
    match runFields path o fields with
    | .ok out => .ok (.obj out)
    | .error es => .error es
  | _ => .error [⟨path, .invalidType "object"⟩]

/-- Validate the elements of an array in order, aggregating all issues. -/
def runElems (p : Validator) (path : Path) : Nat → List Json → Except (List Issue) (List Json)
  | _, [] => .ok []
  | i, x :: xs =>
    match p (path ++ [.idx i]) x, runElems p path (i + 1) xs with
    | .ok u, .ok us => .ok (u :: us)
    | .error e, .ok _ => .error e
    | .ok _, .error e => .error e
    | .error e1, .error e2 => .error (e1 ++ e2)

/-- Model of `z.array(elem)`. -/
def pArray (p : Validator) : Validator := fun path v =>
  match v with
  | .arr xs =>
    match runElems p path 0 xs with
    | .ok us => .ok (.arr us)
    | .error es => .error es
  | _ => .error [⟨path, .invalidType "array"⟩]

/-- Model of `.check(z.refine(pred, msg))`: the refinement runs on the parsed output,
and only when the base schema succeeded. -/
def withCheck (base : Validator) (pred : Json → Bool) (k : IssueKind) : Validator :=
  fun path v =>
    match base path v with
    | .ok u => if pred u then .ok u else .error [⟨path, k⟩]
    | .error es => .error es

/-- Model of `z.xor([a, b])`: exactly one of the two branches must accept. -/
def pXor (a b : Validator) : Validator := fun path v =>
  match a path v, b path v with
  | .ok u, .error _ => .ok u
  | .error _, .ok u => .ok u
  | .ok _, .ok _ => .error [⟨path, .xorNotExactlyOne⟩]
  | .error e1, .error e2 => .error (⟨path, .xorNotExactlyOne⟩ :: (e1 ++ e2))

/-- Find the variant of a discriminated union whose tag literal matches. -/
def findVariant (tag : String) : List (String × Validator) → Option Validator
  | [] => none
  | (t, p) :: rest => if t = tag then some p else findVariant tag rest

/-- Run the selected variant of a discriminated union, or reject with an
issue naming the received discriminator value and the accepted tag literals. -/
def applyVariant (path : Path) (disc : String) (received : Option Json)
    (tags : List String) (o : List (String × Json)) : Option Validator → VResult
  | some p => p path (.obj o)
  | none => .error [⟨path ++ [.key disc], .unknownVariant received tags⟩]

/-- Dispatch on the looked-up discriminator value of a discriminated union. -/
def unionDispatch (path : Path) (disc : String) (variants : List (String × Validator))
    (o : List (String × Json)) : Option Json → VResult
  | some (.str tag) =>
    applyVariant path disc (some (.str tag)) (variants.map (fun x => x.1)) o
      (findVariant tag variants)
  | other => .error [⟨path ++ [.key disc], .unknownVariant other (variants.map (fun x => x.1))⟩]

/-- Model of `z.discriminatedUnion(disc, [...])`: read the discriminator field, pick the
variant with that tag literal and run it; an unknown or missing tag is rejected
with an issue naming the received value and the accepted tag literals. -/
def pDUnion (disc : String) (variants : List (String × Validator)) : Validator
  | path, .obj o => unionDispatch path disc variants o (lookupField o disc)
  | path, _ => .error [⟨path, .invalidType "object"⟩]

-- ## Format checks (the regex / format predicates used by the schemas)

/-- The check of `SnowflakeSchema` (src/utils/validators.ts):
the anchored regex `\d{17,21}` over the whole string. -/
def snowflakeCheck (s : String) : Bool :=
  decide (17 ≤ s.toList.length) && decide (s.toList.length ≤ 21) && s.toList.all Char.isDigit

/-- Numeric value of an ASCII digit. -/
def digitVal (c : Char) : Nat := c.toNat - 48

/-- Gregorian leap-year rule, as encoded by the year alternatives of the
ISO-date regex zod uses for `z.iso.date()`. -/
def isLeapYear (y : Nat) : Bool := (y % 4 == 0 && y % 100 != 0) || y % 400 == 0

/-- Number of days of a month, as encoded by the day alternatives of the
ISO-date regex zod uses for `z.iso.date()`. -/
def monthLength (leap : Bool) (m : Nat) : Nat :=
  if m = 2 then (if leap then 29 else 28)
  else if m = 4 ∨ m = 6 ∨ m = 9 ∨ m = 11 then 30
  else 31

/-- The check of `ISO8601DateSchema` (src/utils/validators.ts, `z.iso.date()`):
exactly `yyyy-mm-dd` with a calendar-valid month and day. -/
def isoDateCheck (s : String) : Bool :=
  match s.toList with
  | [y1, y2, y3, y4, h1, m1, m2, h2, d1, d2] =>
    ([y1, y2, y3, y4, m1, m2, d1, d2].all Char.isDigit) && h1 == '-' && h2 == '-' &&
    (let y := ((digitVal y1 * 10 + digitVal y2) * 10 + digitVal y3) * 10 + digitVal y4
     let m := digitVal m1 * 10 + digitVal m2
     let d := digitVal d1 * 10 + digitVal d2
     decide (1 ≤ m) && decide (m ≤ 12) && decide (1 ≤ d) &&
       decide (d ≤ monthLength (isLeapYear y) m))
  | _ => false

/-- Split a character list at the first colon, returning the part before it
(the scheme) and the part after it. -/
def schemeSplit : List Char → Option (List Char × List Char)
  | [] => none
  | c :: cs =>
    if c = ':' then some ([], cs)
    else
      match schemeSplit cs with
      | some (a, b) => some (c :: a, b)
      | none => none

/-- The check of `z.url()`. The source delegates to the platform WHATWG `URL`
constructor; this is an executable approximation of its success condition
(an ASCII-letter-led scheme, a colon, and a nonempty remainder). None of the
claims below depends on the exact boundary of URL wellformedness. -/
def urlCheck (s : String) : Bool :=
  match schemeSplit s.toList with
  | some (c :: rest, tail) =>
    c.isAlpha && rest.all (fun x => x.isAlpha || x.isDigit || x == '+' || x == '-' || x == '.') &&
      !tail.isEmpty
  | _ => false

/-- The `webhook_secret` check of `IntegrationCreateDataSchema`
(src/v1 validators): the anchored regex `whs_[a-zA-Z0-9]+`. -/
def webhookSecretCheck (s : String) : Bool :=
  match s.toList with
  | c1 :: c2 :: c3 :: c4 :: rest =>
    c1 == 'w' && c2 == 'h' && c3 == 's' && c4 == '_' &&
      (!rest.isEmpty) && rest.all (fun c => c.isAlpha || c.isDigit)
  | _ => false

/-- JS truthiness of an optionally-present JSON value, as used by the
`data.cursor || data.startDate` refinement: `undefined`, `""`, `0`, `false`
and `null` are falsy. -/
def jsTruthy : Option Json → Bool
  | some (.str s) => !s.isEmpty
  | some (.num q) => !(q == 0)
  | some (.bool b) => b
  | some .null => false
  | some (.arr _) => true
  | some (.obj _) => true
  | none => false

/-- The refinement of `GetProjectVotesQuerySchema`:
`(data) => data.cursor || data.startDate` on the parsed query object. -/
def cursorStartDatePred (v : Json) : Bool :=
  match v with
  | .obj o => jsTruthy (lookupField o "cursor") || jsTruthy (lookupField o "startDate")
  | _ => false

/-- The refinement of the `routes` field of `IntegrationCreateResponseSchema`:
`(arr) => arr.length === new Set(arr).size`. -/
def noDuplicatesPred (v : Json) : Bool :=
  match v with
  | .arr xs => xs.length == countDistinct xs
  | _ => false

-- ## The schemas (translated from src/utils/validators.ts and the v1/v0 validators)

/-- Model of `SnowflakeSchema = z.string().check(z.regex(/^\d{17,21}$/, ...))`. -/
def SnowflakeSchema : Validator := pStringCheck snowflakeCheck "snowflake"

/-- Model of `ISO8601DateSchema = z.iso.date()`. -/
def ISO8601DateSchema : Validator := pStringCheck isoDateCheck "iso-date"

/-- Model of `z.url()`. -/
def urlSchema : Validator := pStringCheck urlCheck "url"

/-- Model of `IntegrationWebhookEventTypeSchema = z.enum(["integration.create", "integration.delete"])`. -/
def IntegrationWebhookEventTypeSchema : Validator :=
  pEnum ["integration.create", "integration.delete"]

/-- Model of `WebhookEventTypeSchema = z.enum(["webhook.test", "vote.create"])` (v1). -/
def WebhookEventTypeSchema : Validator := pEnum ["webhook.test", "vote.create"]

/-- Model of `ProjectTypeSchema = z.enum(["bot", "server", "game"])`. -/
def ProjectTypeSchema : Validator := pEnum ["bot", "server", "game"]

/-- Model of `ProjectPlatformTypeSchema = z.enum(["discord", "roblox"])`. -/
def ProjectPlatformTypeSchema : Validator := pEnum ["discord", "roblox"]

/-- The shape of `UserSchema` (v1). -/
def UserSchemaFields : List FieldSpec :=
  [⟨"id", false, SnowflakeSchema⟩,
   ⟨"platform_id", false, SnowflakeSchema⟩,
   ⟨"name", false, pString⟩,
   ⟨"avatar_url", false, urlSchema⟩]

/-- Model of `UserSchema` (v1): id, platform_id, name, avatar_url. -/
def UserSchema : Validator := pObject UserSchemaFields

/-- The shape of `BaseProjectSchema`. -/
def BaseProjectSchemaFields : List FieldSpec :=
  [⟨"id", false, SnowflakeSchema⟩,
   ⟨"platform", false, ProjectPlatformTypeSchema⟩,
   ⟨"platform_id", false, SnowflakeSchema⟩,
   ⟨"type", false, ProjectTypeSchema⟩]

/-- Model of `BaseProjectSchema`. -/
def BaseProjectSchema : Validator := pObject BaseProjectSchemaFields

/-- The shape of `VoteSchema`. -/
def VoteSchemaFields : List FieldSpec :=
  [⟨"user_id", false, SnowflakeSchema⟩,
   ⟨"platform_id", false, SnowflakeSchema⟩,
   ⟨"weight", false, pNumber⟩,
   ⟨"created_at", false, ISO8601DateSchema⟩,
   ⟨"expires_at", false, ISO8601DateSchema⟩]

/-- Model of `VoteSchema`. -/
def VoteSchema : Validator := pObject VoteSchemaFields

/-- The `webhook_secret` field schema of `IntegrationCreateDataSchema`:
`z.string().check(z.regex(/^whs_[a-zA-Z0-9]+$/, "Invalid webhook secret"))`. -/
def webhookSecretSchema : Validator := pStringCheck webhookSecretCheck "whs-secret"

/-- The shape of `IntegrationCreateDataSchema`. -/
def IntegrationCreateDataSchemaFields : List FieldSpec :=
  [⟨"connection_id", false, SnowflakeSchema⟩,
   ⟨"webhook_secret", false, webhookSecretSchema⟩,
   ⟨"project", false, BaseProjectSchema⟩,
   ⟨"user", false, UserSchema⟩]

/-- Model of `IntegrationCreateDataSchema`. -/
def IntegrationCreateDataSchema : Validator := pObject IntegrationCreateDataSchemaFields

/-- The shape of `IntegrationDeleteDataSchema`. -/
def IntegrationDeleteDataSchemaFields : List FieldSpec :=
  [⟨"connection_id", false, SnowflakeSchema⟩]

/-- Model of `IntegrationDeleteDataSchema`. -/
def IntegrationDeleteDataSchema : Validator := pObject IntegrationDeleteDataSchemaFields

/-- The shape of `VoteCreateDataSchema = z.extend(VoteSchema, {project, user})`. -/
def VoteCreateDataSchemaFields : List FieldSpec :=
  VoteSchemaFields ++ [⟨"project", false, BaseProjectSchema⟩, ⟨"user", false, UserSchema⟩]

/-- Model of `VoteCreateDataSchema`. -/
def VoteCreateDataSchema : Validator := pObject VoteCreateDataSchemaFields

/-- The shape of `WebhookTestDataSchema`. -/
def WebhookTestDataSchemaFields : List FieldSpec :=
  [⟨"user", false, UserSchema⟩, ⟨"project", false, BaseProjectSchema⟩]

/-- Model of `WebhookTestDataSchema`. -/
def WebhookTestDataSchema : Validator := pObject WebhookTestDataSchemaFields

/-- Model of `WebhookPayloadBaseSchema(type, data) = z.object({type: z.literal(type), data})`. -/
def WebhookPayloadBaseSchema (tag : String) (dataSchema : Validator) : List FieldSpec :=
  [⟨"type", false, pLiteralStr tag⟩, ⟨"data", false, dataSchema⟩]

/-- Model of `IntegrationCreateWebhookPayloadSchema`. -/
def IntegrationCreateWebhookPayloadSchema : Validator :=
  pObject (WebhookPayloadBaseSchema "integration.create" IntegrationCreateDataSchema)

/-- Model of `IntegrationDeleteWebhookPayloadSchema`. -/
def IntegrationDeleteWebhookPayloadSchema : Validator :=
  pObject (WebhookPayloadBaseSchema "integration.delete" IntegrationDeleteDataSchema)

/-- Model of `VoteCreateWebhookPayloadSchema`. -/
def VoteCreateWebhookPayloadSchema : Validator :=
  pObject (WebhookPayloadBaseSchema "vote.create" VoteCreateDataSchema)

/-- Model of `WebhookTestWebhookPayloadSchema`. -/
def WebhookTestWebhookPayloadSchema : Validator :=
  pObject (WebhookPayloadBaseSchema "webhook.test" WebhookTestDataSchema)

/-- The accepted `type` literals of the v1 webhook payload union, in the
order the variants are listed in the source. -/
def webhookAcceptedTags : List String :=
  ["integration.create", "integration.delete", "vote.create", "webhook.test"]

/-- The v1 webhook union's variant table, keyed by the `type` tag literals,
in the order the variants are listed in the source. -/
def webhookVariants : List (String × Validator) :=
  [("integration.create", IntegrationCreateWebhookPayloadSchema),
   ("integration.delete", IntegrationDeleteWebhookPayloadSchema),
   ("vote.create", VoteCreateWebhookPayloadSchema),
   ("webhook.test", WebhookTestWebhookPayloadSchema)]

/-- Model of `WebhookPayloadSchema = z.discriminatedUnion("type", [...])` (v1). -/
def WebhookPayloadSchema : Validator := pDUnion "type" webhookVariants

/-- The `routes` field schema of `IntegrationCreateResponseSchema`:
`z.array(IntegrationWebhookEventTypeSchema).check(z.refine(arr => arr.length === new Set(arr).size, "Duplicate webhook scopes are not allowed"))`.
Note: the source validates the elements against `IntegrationWebhookEventTypeSchema`
(`integration.create` / `integration.delete`), not against the webhook scope enum. -/
def routesSchema : Validator :=
  withCheck (pArray IntegrationWebhookEventTypeSchema) noDuplicatesPred
    (.custom "Duplicate webhook scopes are not allowed")

/-- The shape of `IntegrationCreateResponseSchema`. -/
def IntegrationCreateResponseSchemaFields : List FieldSpec :=
  [⟨"webhook_url", false, urlSchema⟩, ⟨"routes", false, routesSchema⟩]

/-- Model of `IntegrationCreateResponseSchema`. -/
def IntegrationCreateResponseSchema : Validator := pObject IntegrationCreateResponseSchemaFields

/-- The shape of `GetProjectVotesQuerySchema` before its refinement. -/
def GetProjectVotesQuerySchemaFields : List FieldSpec :=
  [⟨"cursor", true, pString⟩, ⟨"startDate", true, ISO8601DateSchema⟩]

/-- Model of `GetProjectVotesQuerySchema`: optional `cursor` and `startDate` plus the
refinement `data.cursor || data.startDate`. -/
def GetProjectVotesQuerySchema : Validator :=
  withCheck (pObject GetProjectVotesQuerySchemaFields) cursorStartDatePred
    (.custom "Either cursor or startDate must be provided")

/-- Build the entries of a query object from an optionally-present string
field (used to quantify over all shapes of the project-votes query). -/
def optStrField (k : String) : Option String → List (String × Json)
  | some s => [(k, .str s)]
  | none => []

/-- The `voted` field schema of `GetUserVoteCheckResponseSchema` (v0):
`z.xor([z.literal(0), z.literal(1)])`. -/
def votedSchema : Validator := pXor (pLiteralNum 0) (pLiteralNum 1)

/-- Model of `GetUserVoteCheckResponseSchema` (v0). -/
def GetUserVoteCheckResponseSchema : Validator := pObject [⟨"voted", false, votedSchema⟩]

-- ## General lemmas about validation results

theorem mem_errorsOf {α : Type} (r : Except (List Issue) α) (i : Issue)
    (h : i ∈ errorsOf r) : ∃ E, r = .error E ∧ i ∈ E := by
  cases r with
  | ok u => simp [errorsOf] at h
  | error E => exact ⟨E, rfl, h⟩

theorem isOkE_false_of_mem {α : Type} (r : Except (List Issue) α) (i : Issue)
    (h : i ∈ errorsOf r) : isOkE r = false := by
  obtain ⟨E, hE, _⟩ := mem_errorsOf r i h
  simp [hE, isOkE]

/-- A validator that returns its input unchanged on success. -/
def PassThru (p : Validator) : Prop :=
  ∀ path v u, p path v = .ok u → u = v

/-- A validator that accepts its own successful output, reproducing it. -/
def Idem (p : Validator) : Prop :=
  ∀ path v u, p path v = .ok u → p path u = .ok u

theorem idem_of_passThru (p : Validator) (h : PassThru p) : Idem p := by
  intro path v u hok
  have := h path v u hok
  subst this
  exact hok

theorem passThru_pString : PassThru pString := by
  intro path v u h
  cases v <;> simp only [pString] at h
  case str s => exact (Except.ok.inj h).symm
  all_goals exact absurd h (by simp)

theorem passThru_pNumber : PassThru pNumber := by
  intro path v u h
  cases v <;> simp only [pNumber] at h
  case num q => exact (Except.ok.inj h).symm
  all_goals exact absurd h (by simp)

theorem passThru_pStringCheck (chk : String → Bool) (fmt : String) :
    PassThru (pStringCheck chk fmt) := by
  intro path v u h
  cases v <;> simp only [pStringCheck] at h
  case str s =>
    split at h
    · exact (Except.ok.inj h).symm
    · exact absurd h (by simp)
  all_goals exact absurd h (by simp)

theorem passThru_pEnum (accepted : List String) : PassThru (pEnum accepted) := by
  intro path v u h
  cases v <;> simp only [pEnum] at h
  case str s =>
    split at h
    · exact (Except.ok.inj h).symm
    · exact absurd h (by simp)
  all_goals exact absurd h (by simp)

theorem passThru_pLiteralStr (lit : String) : PassThru (pLiteralStr lit) := by
  intro path v u h
  cases v <;> simp only [pLiteralStr] at h
  case str s =>
    split at h
    · exact (Except.ok.inj h).symm
    · exact absurd h (by simp)
  all_goals exact absurd h (by simp)

theorem passThru_pLiteralNum (lit : Rat) : PassThru (pLiteralNum lit) := by
  intro path v u h
  cases v <;> simp only [pLiteralNum] at h
  case num q =>
    split at h
    · exact (Except.ok.inj h).symm
    · exact absurd h (by simp)
  all_goals exact absurd h (by simp)

theorem withCheck_ok_eq (base : Validator) (pred : Json → Bool) (k : IssueKind)
    (path : Path) (v w : Json) (hb : base path v = .ok w) :
    withCheck base pred k path v =
      if pred w then .ok w else .error [⟨path, k⟩] := by
  unfold withCheck
  rw [hb]

theorem withCheck_error_eq (base : Validator) (pred : Json → Bool) (k : IssueKind)
    (path : Path) (v : Json) (es : List Issue) (hb : base path v = .error es) :
    withCheck base pred k path v = .error es := by
  unfold withCheck
  rw [hb]

theorem idem_withCheck (base : Validator) (pred : Json → Bool) (k : IssueKind)
    (hb : Idem base) : Idem (withCheck base pred k) := by
  intro path v u h
  cases hbase : base path v with
  | ok w =>
    rw [withCheck_ok_eq base pred k path v w hbase] at h
    split at h
    next hp =>
      obtain rfl := Except.ok.inj h
      rw [withCheck_ok_eq base pred k path w w (hb path v w hbase)]
      rw [if_pos hp]
    next hp => exact absurd h (by simp)
  | error es =>
    rw [withCheck_error_eq base pred k path v es hbase] at h
    exact absurd h (by simp)

theorem passThru_votedSchema : PassThru votedSchema := by
  intro path v u h
  unfold votedSchema pXor at h
  cases hv0 : pLiteralNum 0 path v with
  | ok w =>
    have hw := passThru_pLiteralNum 0 path v w hv0
    cases hv1 : pLiteralNum 1 path v with
    | ok w2 => rw [hv0, hv1] at h; exact absurd h (by simp)
    | error e => rw [hv0, hv1] at h; cases Except.ok.inj h; exact hw
  | error e =>
    cases hv1 : pLiteralNum 1 path v with
    | ok w2 =>
      have hw := passThru_pLiteralNum 1 path v w2 hv1
      rw [hv0, hv1] at h
      cases Except.ok.inj h
      exact hw
    | error e2 => rw [hv0, hv1] at h; exact absurd h (by simp)

theorem idem_votedSchema : Idem votedSchema := by
  intro path v u h
  have := passThru_votedSchema path v u h
  subst this
  exact h

-- ## Evaluation equations for object validation

theorem runField_none_eq (path : Path) (o : List (String × Json)) (f : FieldSpec)
    (hl : lookupField o f.name = none) :
    runField path o f =
      if f.optional then .ok [] else .error [⟨path ++ [.key f.name], .missingField⟩] := by
  simp only [runField, hl, fieldResult]

theorem runField_some_ok_eq (path : Path) (o : List (String × Json)) (f : FieldSpec)
    (v u : Json) (hl : lookupField o f.name = some v)
    (hv : f.validator (path ++ [.key f.name]) v = .ok u) :
    runField path o f = .ok [(f.name, u)] := by
  simp only [runField, hl, fieldResult, hv]

theorem runField_some_error_eq (path : Path) (o : List (String × Json)) (f : FieldSpec)
    (v : Json) (es : List Issue) (hl : lookupField o f.name = some v)
    (hv : f.validator (path ++ [.key f.name]) v = .error es) :
    runField path o f = .error es := by
  simp only [runField, hl, fieldResult, hv]

theorem runField_cases (path : Path) (o : List (String × Json)) (f : FieldSpec)
    (a : List (String × Json)) (h : runField path o f = .ok a) :
    (a = [] ∧ lookupField o f.name = none ∧ f.optional = true) ∨
    (∃ v u, lookupField o f.name = some v ∧
      f.validator (path ++ [.key f.name]) v = .ok u ∧ a = [(f.name, u)]) := by
  unfold runField at h
  cases hl : lookupField o f.name with
  | none =>
    rw [hl] at h
    simp only [fieldResult] at h
    split at h
    next hopt =>
      left
      exact ⟨(Except.ok.inj h).symm, rfl, hopt⟩
    next => exact absurd h (by simp)
  | some v =>
    rw [hl] at h
    simp only [fieldResult] at h
    split at h
    next u hv =>
      right
      exact ⟨v, u, rfl, hv, (Except.ok.inj h).symm⟩
    next es hv => exact absurd h (by simp)

theorem runField_congr (path : Path) (o o2 : List (String × Json)) (f : FieldSpec)
    (h : lookupField o2 f.name = lookupField o f.name) :
    runField path o2 f = runField path o f := by
  unfold runField
  rw [h]

theorem runFields_congr (path : Path) (o o2 : List (String × Json)) (fs : List FieldSpec)
    (h : ∀ f ∈ fs, lookupField o2 f.name = lookupField o f.name) :
    runFields path o2 fs = runFields path o fs := by
  induction fs with
  | nil => rfl
  | cons f fs ih =>
    unfold runFields
    rw [runField_congr path o o2 f (h f (by simp)),
      ih (fun g hg => h g (by simp [hg]))]

theorem lookupField_eq_none (xs : List (String × Json)) (k : String)
    (h : ∀ e ∈ xs, e.1 ≠ k) : lookupField xs k = none := by
  induction xs with
  | nil => rfl
  | cons e xs ih =>
    obtain ⟨k1, v1⟩ := e
    simp only [lookupField]
    rw [if_neg (h (k1, v1) (by simp))]
    exact ih (fun e he => h e (by simp [he]))

theorem runFields_ok_names (path : Path) (o : List (String × Json)) (fs : List FieldSpec)
    (out : List (String × Json)) (h : runFields path o fs = .ok out) :
    ∀ e ∈ out, e.1 ∈ fs.map FieldSpec.name := by
  induction fs generalizing out with
  | nil =>
    unfold runFields at h
    obtain rfl := Except.ok.inj h
    simp
  | cons f fs ih =>
    unfold runFields at h
    cases ha : runField path o f with
    | ok a =>
      cases hb : runFields path o fs with
      | ok b =>
        rw [ha, hb] at h
        obtain rfl := Except.ok.inj h
        intro e he
        rcases List.mem_append.mp he with hea | heb
        · rcases runField_cases path o f a ha with ⟨rfl, -, -⟩ | ⟨v, u, -, -, rfl⟩
          · simp at hea
          · simp at hea
            simp [hea]
        · have := ih b hb e heb
          simp at this ⊢
          exact Or.inr this
      | error e2 => rw [ha, hb] at h; exact absurd h (by simp)
    | error e =>
      cases hb : runFields path o fs with
      | ok b => rw [ha, hb] at h; exact absurd h (by simp)
      | error e2 => rw [ha, hb] at h; exact absurd h (by simp)

theorem runFields_idem (path : Path) (o : List (String × Json)) (fs : List FieldSpec)
    (out : List (String × Json))
    (hidem : ∀ f ∈ fs, Idem f.validator)
    (hnodup : (fs.map FieldSpec.name).Nodup)
    (h : runFields path o fs = .ok out) :
    runFields path out fs = .ok out := by
  induction fs generalizing out with
  | nil =>
    unfold runFields at h ⊢
    obtain rfl := Except.ok.inj h
    rfl
  | cons f fs ih =>
    unfold runFields at h
    cases ha : runField path o f with
    | error e =>
      cases hb : runFields path o fs with
      | ok b => rw [ha, hb] at h; exact absurd h (by simp)
      | error e2 => rw [ha, hb] at h; exact absurd h (by simp)
    | ok a =>
      cases hb : runFields path o fs with
      | error e2 => rw [ha, hb] at h; exact absurd h (by simp)
      | ok b =>
        rw [ha, hb] at h
        obtain rfl := Except.ok.inj h
        simp only [List.map_cons, List.nodup_cons] at hnodup
        obtain ⟨hn1, hn2⟩ := hnodup
        have hbnames := runFields_ok_names path o fs b hb
        have hb2 : runFields path (a ++ b) fs = .ok b := by
          have hcongr : ∀ g ∈ fs, lookupField (a ++ b) g.name = lookupField b g.name := by
            intro g hg
            rcases runField_cases path o f a ha with ⟨rfl, -, -⟩ | ⟨v, u, -, -, rfl⟩
            · simp
            · have hne : ¬(f.name = g.name) := fun heq =>
                hn1 (by rw [heq]; exact List.mem_map.mpr ⟨g, hg, rfl⟩)
              simp [lookupField, hne]
          rw [runFields_congr path b (a ++ b) fs hcongr]
          exact ih b (fun g hg => hidem g (by simp [hg])) hn2 hb
        have ha2 : runField path (a ++ b) f = .ok a := by
          rcases runField_cases path o f a ha with ⟨rfl, hl, hopt⟩ | ⟨v, u, hl, hv, rfl⟩
          · have : lookupField (([] : List (String × Json)) ++ b) f.name = none := by
              simp only [List.nil_append]
              apply lookupField_eq_none
              intro e he heq
              exact hn1 (heq ▸ hbnames e he)
            rw [runField_none_eq path _ f this, if_pos hopt]
          · have hl2 : lookupField ([(f.name, u)] ++ b) f.name = some u := by
              simp [lookupField]
            have hv2 : f.validator (path ++ [.key f.name]) u = .ok u :=
              hidem f (by simp) (path ++ [.key f.name]) v u hv
            exact runField_some_ok_eq path _ f u u hl2 hv2
        unfold runFields
        rw [ha2, hb2]

theorem pObject_obj_eq (fs : List FieldSpec) (path : Path) (o : List (String × Json)) :
    pObject fs path (.obj o) =
      match runFields path o fs with
      | .ok out => .ok (.obj out)
      | .error es => .error es := rfl

theorem pObject_ok_cases (fs : List FieldSpec) (path : Path) (v u : Json)
    (h : pObject fs path v = .ok u) :
    ∃ o out, v = .obj o ∧ runFields path o fs = .ok out ∧ u = .obj out := by
  cases v <;> simp only [pObject] at h
  case obj o =>
    cases hr : runFields path o fs with
    | ok out =>
      rw [hr] at h
      exact ⟨o, out, rfl, hr, (Except.ok.inj h).symm⟩
    | error es =>
      rw [hr] at h
      exact absurd h (by simp)
  all_goals exact absurd h (by simp)

theorem pObject_idem (fs : List FieldSpec)
    (hidem : ∀ f ∈ fs, Idem f.validator)
    (hnodup : (fs.map FieldSpec.name).Nodup) : Idem (pObject fs) := by
  intro path v u h
  obtain ⟨o, out, rfl, hr, rfl⟩ := pObject_ok_cases fs path v u h
  rw [pObject_obj_eq, runFields_idem path o fs out hidem hnodup hr]

-- ## Error aggregation lemmas

theorem runFields_mem_issue (path : Path) (o : List (String × Json))
    (fs : List FieldSpec) (f : FieldSpec) (hf : f ∈ fs) (i : Issue)
    (hi : i ∈ errorsOf (runField path o f)) :
    i ∈ errorsOf (runFields path o fs) := by
  induction fs with
  | nil => simp at hf
  | cons g fs ih =>
    rcases List.mem_cons.mp hf with rfl | hf2
    · obtain ⟨e, he, hie⟩ := mem_errorsOf _ i hi
      unfold runFields
      rw [he]
      cases hb : runFields path o fs <;> simp [errorsOf, hie]
    · have hrec := ih hf2
      obtain ⟨e2, he2, hie2⟩ := mem_errorsOf _ i hrec
      unfold runFields
      rw [he2]
      cases ha : runField path o g <;> simp [errorsOf, hie2]

theorem pObject_errorsOf (fs : List FieldSpec) (path : Path) (o : List (String × Json)) :
    errorsOf (pObject fs path (.obj o)) = errorsOf (runFields path o fs) := by
  rw [pObject_obj_eq]
  cases runFields path o fs <;> simp [errorsOf]

theorem runField_mem_issue (path : Path) (o : List (String × Json)) (f : FieldSpec)
    (v : Json) (hl : lookupField o f.name = some v) (i : Issue)
    (hi : i ∈ errorsOf (f.validator (path ++ [.key f.name]) v)) :
    i ∈ errorsOf (runField path o f) := by
  obtain ⟨es, hes, hie⟩ := mem_errorsOf _ i hi
  rw [runField_some_error_eq path o f v es hl hes]
  exact hie

theorem runField_missing_mem (path : Path) (o : List (String × Json)) (f : FieldSpec)
    (hl : lookupField o f.name = none) (hreq : f.optional = false) :
    (⟨path ++ [.key f.name], .missingField⟩ : Issue) ∈ errorsOf (runField path o f) := by
  rw [runField_none_eq path o f hl, hreq]
  simp [errorsOf]

-- ## Idempotence of arrays and of the concrete schemas

theorem runElems_idem (p : Validator) (hp : Idem p) (path : Path) :
    ∀ (xs : List Json) (i : Nat) (us : List Json),
      runElems p path i xs = .ok us → runElems p path i us = .ok us := by
  intro xs
  induction xs with
  | nil =>
    intro i us h
    unfold runElems at h
    obtain rfl := Except.ok.inj h
    rfl
  | cons x xs ih =>
    intro i us h
    unfold runElems at h
    cases ha : p (path ++ [.idx i]) x with
    | error e =>
      cases hb : runElems p path (i + 1) xs <;> rw [ha, hb] at h <;> exact absurd h (by simp)
    | ok u =>
      cases hb : runElems p path (i + 1) xs with
      | error e =>
        rw [ha, hb] at h
        exact absurd h (by simp)
      | ok us2 =>
        rw [ha, hb] at h
        obtain rfl := Except.ok.inj h
        unfold runElems
        rw [hp (path ++ [PathElem.idx i]) x u ha, ih (i + 1) us2 hb]

theorem idem_pArray (p : Validator) (hp : Idem p) : Idem (pArray p) := by
  intro path v u h
  cases v <;> simp only [pArray] at h
  case arr xs =>
    cases hr : runElems p path 0 xs with
    | ok us =>
      rw [hr] at h
      obtain rfl := Except.ok.inj h
      simp only [pArray]
      rw [runElems_idem p hp path xs 0 us hr]
    | error es =>
      rw [hr] at h
      exact absurd h (by simp)
  all_goals exact absurd h (by simp)

theorem idem_SnowflakeSchema : Idem SnowflakeSchema :=
  idem_of_passThru _ (passThru_pStringCheck _ _)

theorem idem_ISO8601DateSchema : Idem ISO8601DateSchema :=
  idem_of_passThru _ (passThru_pStringCheck _ _)

theorem idem_urlSchema : Idem urlSchema :=
  idem_of_passThru _ (passThru_pStringCheck _ _)

theorem idem_webhookSecretSchema : Idem webhookSecretSchema :=
  idem_of_passThru _ (passThru_pStringCheck _ _)

theorem idem_UserSchema : Idem UserSchema := by
  apply pObject_idem
  · intro f hf
    simp only [UserSchemaFields, List.mem_cons, List.not_mem_nil, or_false] at hf
    rcases hf with rfl | rfl | rfl | rfl
    · exact idem_SnowflakeSchema
    · exact idem_SnowflakeSchema
    · exact idem_of_passThru _ passThru_pString
    · exact idem_urlSchema
  · decide

theorem idem_BaseProjectSchema : Idem BaseProjectSchema := by
  apply pObject_idem
  · intro f hf
    simp only [BaseProjectSchemaFields, List.mem_cons, List.not_mem_nil, or_false] at hf
    rcases hf with rfl | rfl | rfl | rfl
    · exact idem_SnowflakeSchema
    · exact idem_of_passThru _ (passThru_pEnum _)
    · exact idem_SnowflakeSchema
    · exact idem_of_passThru _ (passThru_pEnum _)
  · decide

theorem idem_IntegrationCreateDataSchema : Idem IntegrationCreateDataSchema := by
  apply pObject_idem
  · intro f hf
    simp only [IntegrationCreateDataSchemaFields, List.mem_cons, List.not_mem_nil,
      or_false] at hf
    rcases hf with rfl | rfl | rfl | rfl
    · exact idem_SnowflakeSchema
    · exact idem_webhookSecretSchema
    · exact idem_BaseProjectSchema
    · exact idem_UserSchema
  · decide

theorem idem_IntegrationDeleteDataSchema : Idem IntegrationDeleteDataSchema := by
  apply pObject_idem
  · intro f hf
    simp only [IntegrationDeleteDataSchemaFields, List.mem_cons, List.not_mem_nil,
      or_false] at hf
    rcases hf with rfl
    exact idem_SnowflakeSchema
  · decide

theorem idem_VoteCreateDataSchema : Idem VoteCreateDataSchema := by
  apply pObject_idem
  · intro f hf
    simp only [VoteCreateDataSchemaFields, VoteSchemaFields, List.mem_append, List.mem_cons,
      List.not_mem_nil, or_false] at hf
    rcases hf with (rfl | rfl | rfl | rfl | rfl) | (rfl | rfl)
    · exact idem_SnowflakeSchema
    · exact idem_SnowflakeSchema
    · exact idem_of_passThru _ passThru_pNumber
    · exact idem_ISO8601DateSchema
    · exact idem_ISO8601DateSchema
    · exact idem_BaseProjectSchema
    · exact idem_UserSchema
  · decide

theorem idem_WebhookTestDataSchema : Idem WebhookTestDataSchema := by
  apply pObject_idem
  · intro f hf
    simp only [WebhookTestDataSchemaFields, List.mem_cons, List.not_mem_nil, or_false] at hf
    rcases hf with rfl | rfl
    · exact idem_UserSchema
    · exact idem_BaseProjectSchema
  · decide

theorem idem_payload (tag : String) (ds : Validator) (hds : Idem ds) :
    Idem (pObject (WebhookPayloadBaseSchema tag ds)) := by
  apply pObject_idem
  · intro f hf
    simp only [WebhookPayloadBaseSchema, List.mem_cons, List.not_mem_nil, or_false] at hf
    rcases hf with rfl | rfl
    · exact idem_of_passThru _ (passThru_pLiteralStr _)
    · exact hds
  · simp [WebhookPayloadBaseSchema]

theorem pLiteralStr_ok_shape (lit : String) (path : Path) (v u : Json)
    (h : pLiteralStr lit path v = .ok u) : u = .str lit := by
  cases v <;> simp only [pLiteralStr] at h
  case str s =>
    split at h
    next hs =>
      have := Except.ok.inj h
      subst this
      rw [hs]
    next => exact absurd h (by simp)
  all_goals exact absurd h (by simp)

/-- A successful parse of a webhook payload variant produces an object whose
head entry is the variant's `type` literal. -/
theorem payload_ok_shape (tag : String) (ds : Validator) (path : Path) (v u : Json)
    (h : pObject (WebhookPayloadBaseSchema tag ds) path v = .ok u) :
    ∃ b, u = .obj (("type", .str tag) :: b) := by
  obtain ⟨o, out, rfl, hr, rfl⟩ := pObject_ok_cases _ path v u h
  simp only [WebhookPayloadBaseSchema] at hr
  unfold runFields at hr
  cases ha : runField path o ⟨"type", false, pLiteralStr tag⟩ with
  | error e =>
    cases hb : runFields path o [⟨"data", false, ds⟩] <;> rw [ha, hb] at hr <;>
      exact absurd hr (by simp)
  | ok a =>
    cases hb : runFields path o [⟨"data", false, ds⟩] with
    | error e =>
      rw [ha, hb] at hr
      exact absurd hr (by simp)
    | ok b =>
      rw [ha, hb] at hr
      obtain rfl := Except.ok.inj hr
      rcases runField_cases path o _ a ha with ⟨rfl, -, hopt⟩ | ⟨w, u, -, hv, rfl⟩
      · exact absurd hopt (by simp)
      · have := pLiteralStr_ok_shape tag _ w u hv
        subst this
        exact ⟨b, rfl⟩

theorem lookupField_head (k : String) (v : Json) (rest : List (String × Json)) :
    lookupField ((k, v) :: rest) k = some v := by
  simp [lookupField]

theorem WebhookPayloadSchema_eq_pDUnion :
    WebhookPayloadSchema = pDUnion "type" webhookVariants := rfl

theorem unionDispatch_not_str (path : Path) (disc : String)
    (variants : List (String × Validator)) (o : List (String × Json)) (j : Option Json)
    (hj : ∀ tag : String, j ≠ some (.str tag)) :
    unionDispatch path disc variants o j =
      .error [⟨path ++ [.key disc], .unknownVariant j (variants.map (fun x => x.1))⟩] := by
  cases j with
  | none => rfl
  | some x =>
    cases x with
    | str s => exact absurd rfl (hj s)
    | null => rfl
    | bool b => rfl
    | num q => rfl
    | arr xs => rfl
    | obj o2 => rfl

theorem findVariant_not_mem (tag : String) (variants : List (String × Validator))
    (h : tag ∉ variants.map (fun x => x.1)) : findVariant tag variants = none := by
  induction variants with
  | nil => rfl
  | cons e rest ih =>
    obtain ⟨t, p⟩ := e
    simp only [List.map_cons, List.mem_cons] at h
    push_neg at h
    simp only [findVariant]
    rw [if_neg (fun he => h.1 he.symm)]
    exact ih h.2

theorem idem_WebhookPayloadSchema : Idem WebhookPayloadSchema := by
  intro path v u h
  rw [WebhookPayloadSchema_eq_pDUnion] at h ⊢
  cases v with
  | obj o =>
    rw [show pDUnion "type" webhookVariants path (.obj o) =
      unionDispatch path "type" webhookVariants o (lookupField o "type") from rfl] at h
    by_cases hstr : ∃ tag : String, lookupField o "type" = some (.str tag)
    · obtain ⟨tag, hl⟩ := hstr
      rw [hl] at h
      rw [show unionDispatch path "type" webhookVariants o (some (.str tag)) =
        applyVariant path "type" (some (.str tag)) (webhookVariants.map (fun x => x.1)) o
          (findVariant tag webhookVariants) from rfl] at h
      by_cases h1 : tag = "integration.create"
      · subst h1
        rw [show findVariant "integration.create" webhookVariants =
          some IntegrationCreateWebhookPayloadSchema from rfl] at h
        rw [show applyVariant path "type" (some (.str "integration.create"))
          (webhookVariants.map (fun x => x.1)) o (some IntegrationCreateWebhookPayloadSchema) =
          IntegrationCreateWebhookPayloadSchema path (.obj o) from rfl] at h
        obtain ⟨b, rfl⟩ := payload_ok_shape _ _ path (.obj o) u h
        have hid := idem_payload "integration.create" IntegrationCreateDataSchema
          idem_IntegrationCreateDataSchema path (.obj o) _ h
        rw [show pDUnion "type" webhookVariants path
            (.obj (("type", Json.str "integration.create") :: b)) =
          unionDispatch path "type" webhookVariants (("type", Json.str "integration.create") :: b)
            (lookupField (("type", Json.str "integration.create") :: b) "type") from rfl,
          lookupField_head]
        exact hid
      · by_cases h2 : tag = "integration.delete"
        · subst h2
          rw [show findVariant "integration.delete" webhookVariants =
            some IntegrationDeleteWebhookPayloadSchema from rfl] at h
          rw [show applyVariant path "type" (some (.str "integration.delete"))
            (webhookVariants.map (fun x => x.1)) o (some IntegrationDeleteWebhookPayloadSchema) =
            IntegrationDeleteWebhookPayloadSchema path (.obj o) from rfl] at h
          obtain ⟨b, rfl⟩ := payload_ok_shape _ _ path (.obj o) u h
          have hid := idem_payload "integration.delete" IntegrationDeleteDataSchema
            idem_IntegrationDeleteDataSchema path (.obj o) _ h
          rw [show pDUnion "type" webhookVariants path
              (.obj (("type", Json.str "integration.delete") :: b)) =
            unionDispatch path "type" webhookVariants
              (("type", Json.str "integration.delete") :: b)
              (lookupField (("type", Json.str "integration.delete") :: b) "type") from rfl,
            lookupField_head]
          exact hid
        · by_cases h3 : tag = "vote.create"
          · subst h3
            rw [show findVariant "vote.create" webhookVariants =
              some VoteCreateWebhookPayloadSchema from rfl] at h
            rw [show applyVariant path "type" (some (.str "vote.create"))
              (webhookVariants.map (fun x => x.1)) o (some VoteCreateWebhookPayloadSchema) =
              VoteCreateWebhookPayloadSchema path (.obj o) from rfl] at h
            obtain ⟨b, rfl⟩ := payload_ok_shape _ _ path (.obj o) u h
            have hid := idem_payload "vote.create" VoteCreateDataSchema
              idem_VoteCreateDataSchema path (.obj o) _ h
            rw [show pDUnion "type" webhookVariants path
                (.obj (("type", Json.str "vote.create") :: b)) =
              unionDispatch path "type" webhookVariants (("type", Json.str "vote.create") :: b)
                (lookupField (("type", Json.str "vote.create") :: b) "type") from rfl,
              lookupField_head]
            exact hid
          · by_cases h4 : tag = "webhook.test"
            · subst h4
              rw [show findVariant "webhook.test" webhookVariants =
                some WebhookTestWebhookPayloadSchema from rfl] at h
              rw [show applyVariant path "type" (some (.str "webhook.test"))
                (webhookVariants.map (fun x => x.1)) o (some WebhookTestWebhookPayloadSchema) =
                WebhookTestWebhookPayloadSchema path (.obj o) from rfl] at h
              obtain ⟨b, rfl⟩ := payload_ok_shape _ _ path (.obj o) u h
              have hid := idem_payload "webhook.test" WebhookTestDataSchema
                idem_WebhookTestDataSchema path (.obj o) _ h
              rw [show pDUnion "type" webhookVariants path
                  (.obj (("type", Json.str "webhook.test") :: b)) =
                unionDispatch path "type" webhookVariants (("type", Json.str "webhook.test") :: b)
                  (lookupField (("type", Json.str "webhook.test") :: b) "type") from rfl,
                lookupField_head]
              exact hid
            · rw [findVariant_not_mem tag webhookVariants (by
                  simp only [webhookVariants, List.map_cons, List.map_nil, List.mem_cons,
                    List.not_mem_nil, or_false]
                  push_neg
                  exact ⟨h1, h2, h3, h4⟩)] at h
              exact absurd h (by simp [applyVariant])
    · push_neg at hstr
      rw [unionDispatch_not_str path "type" webhookVariants o (lookupField o "type") hstr] at h
      exact absurd h (by simp)
  | null => exact absurd h (by simp [pDUnion])
  | bool b => exact absurd h (by simp [pDUnion])
  | num q => exact absurd h (by simp [pDUnion])
  | str s => exact absurd h (by simp [pDUnion])
  | arr xs => exact absurd h (by simp [pDUnion])

theorem idem_routesSchema : Idem routesSchema :=
  idem_withCheck _ _ _ (idem_pArray _ (idem_of_passThru _ (passThru_pEnum _)))

theorem idem_IntegrationCreateResponseSchema : Idem IntegrationCreateResponseSchema := by
  apply pObject_idem
  · intro f hf
    simp only [IntegrationCreateResponseSchemaFields, List.mem_cons, List.not_mem_nil,
      or_false] at hf
    rcases hf with rfl | rfl
    · exact idem_urlSchema
    · exact idem_routesSchema
  · decide

theorem idem_GetProjectVotesQuerySchema : Idem GetProjectVotesQuerySchema := by
  apply idem_withCheck
  apply pObject_idem
  · intro f hf
    simp only [GetProjectVotesQuerySchemaFields, List.mem_cons, List.not_mem_nil,
      or_false] at hf
    rcases hf with rfl | rfl
    · exact idem_of_passThru _ passThru_pString
    · exact idem_ISO8601DateSchema
  · decide

theorem idem_GetUserVoteCheckResponseSchema : Idem GetUserVoteCheckResponseSchema := by
  apply pObject_idem
  · intro f hf
    simp only [List.mem_cons, List.not_mem_nil, or_false] at hf
    rcases hf with rfl
    exact idem_votedSchema
  · decide

-- ## Characterizations of the string format checks

theorem isDigit_iff (c : Char) : c.isDigit = true ↔ ('0' ≤ c ∧ c ≤ '9') := by
  simp [Char.isDigit, Char.le_def]

theorem isAlphaNum_iff (c : Char) : (c.isAlpha || c.isDigit) = true ↔
    (('A' ≤ c ∧ c ≤ 'Z') ∨ ('a' ≤ c ∧ c ≤ 'z') ∨ ('0' ≤ c ∧ c ≤ '9')) := by
  simp [Char.isAlpha, Char.isUpper, Char.isLower, Char.isDigit, Char.le_def, or_assoc]

theorem pStringCheck_ok_iff (chk : String → Bool) (fmt : String) (path : Path) (v : Json) :
    isOkE (pStringCheck chk fmt path v) = true ↔ ∃ s, v = .str s ∧ chk s = true := by
  cases v with
  | str s =>
    by_cases hc : chk s = true
    · rw [show pStringCheck chk fmt path (.str s) = .ok (.str s) from by
        simp only [pStringCheck]; rw [if_pos hc]]
      simp [isOkE]
      exact hc
    · rw [show pStringCheck chk fmt path (.str s) =
        .error [⟨path, .invalidFormat fmt s⟩] from by
        simp only [pStringCheck]; rw [if_neg hc]]
      simp [isOkE]
      simpa using hc
  | null => simp [pStringCheck, isOkE]
  | bool b => simp [pStringCheck, isOkE]
  | num q => simp [pStringCheck, isOkE]
  | arr xs => simp [pStringCheck, isOkE]
  | obj o => simp [pStringCheck, isOkE]

theorem pStringCheck_str_ok_iff (chk : String → Bool) (fmt : String) (path : Path)
    (s : String) :
    isOkE (pStringCheck chk fmt path (.str s)) = true ↔ chk s = true := by
  rw [pStringCheck_ok_iff]
  simp

theorem snowflakeCheck_iff (s : String) : snowflakeCheck s = true ↔
    17 ≤ s.toList.length ∧ s.toList.length ≤ 21 ∧ ∀ c ∈ s.toList, '0' ≤ c ∧ c ≤ '9' := by
  simp only [snowflakeCheck, Bool.and_eq_true, decide_eq_true_eq, List.all_eq_true,
    isDigit_iff, and_assoc]

theorem webhookSecretCheck_iff (s : String) : webhookSecretCheck s = true ↔
    ∃ t : List Char, s.toList = 'w' :: 'h' :: 's' :: '_' :: t ∧ t ≠ [] ∧
      ∀ c ∈ t, (c.isAlpha || c.isDigit) = true := by
  constructor
  · intro h
    unfold webhookSecretCheck at h
    split at h
    next c1 c2 c3 c4 rest heq =>
      simp only [Bool.and_eq_true, beq_iff_eq, Bool.not_eq_eq_eq_not, Bool.not_true,
        List.isEmpty_eq_false, List.all_eq_true] at h
      obtain ⟨⟨⟨⟨⟨h1, h2⟩, h3⟩, h4⟩, h5⟩, h6⟩ := h
      subst h1; subst h2; subst h3; subst h4
      exact ⟨rest, heq, h5, h6⟩
    next => exact absurd h (by simp)
  · rintro ⟨t, heq, hne, hall⟩
    unfold webhookSecretCheck
    rw [heq]
    simp only [beq_self_eq_true, Bool.true_and, Bool.and_eq_true, Bool.not_eq_eq_eq_not,
      Bool.not_true, List.isEmpty_eq_false, List.all_eq_true]
    exact ⟨hne, hall⟩

theorem isoDateCheck_ne_empty (t : String) (hdt : isoDateCheck t = true) :
    t.isEmpty = false := by
  rw [Bool.eq_false_iff]
  intro he
  rw [(String.isEmpty_iff t).mp he] at hdt
  exact absurd hdt (by decide)

-- ## Claim theorems

/-- C4: the Snowflake identifier validator accepts exactly the strings of 17
to 21 ASCII digits; shorter or longer strings, strings with a non-digit
character, and non-string JSON values are all rejected. -/
theorem claim_C4_snowflake_characterization (v : Json) :
    isOkE (SnowflakeSchema [] v) = true ↔
      ∃ s : String, v = .str s ∧ 17 ≤ s.toList.length ∧ s.toList.length ≤ 21 ∧
        ∀ c ∈ s.toList, '0' ≤ c ∧ c ≤ '9' := by
  unfold SnowflakeSchema
  rw [pStringCheck_ok_iff]
  exact exists_congr fun s => and_congr_right fun _ => snowflakeCheck_iff s

/-- C6: the `webhook_secret` field validator of the integration-create data
accepts exactly the strings made of the literal four characters `whs_`
followed by one or more ASCII alphanumeric characters; in particular
`whs_Ab12` is accepted while `secret_Ab12` and `whs_` are rejected. -/
theorem claim_C6_webhook_secret_format (s : String) :
    (isOkE (webhookSecretSchema [] (.str s)) = true ↔
      ∃ t : List Char, s.toList = 'w' :: 'h' :: 's' :: '_' :: t ∧ t ≠ [] ∧
        ∀ c ∈ t, ('A' ≤ c ∧ c ≤ 'Z') ∨ ('a' ≤ c ∧ c ≤ 'z') ∨ ('0' ≤ c ∧ c ≤ '9')) ∧
    isOkE (webhookSecretSchema [] (.str "whs_Ab12")) = true ∧
    isOkE (webhookSecretSchema [] (.str "secret_Ab12")) = false ∧
    isOkE (webhookSecretSchema [] (.str "whs_")) = false := by
  refine ⟨?_, by decide, by decide, by decide⟩
  unfold webhookSecretSchema
  rw [pStringCheck_str_ok_iff, webhookSecretCheck_iff]
  exact exists_congr fun t => and_congr_right fun _ => and_congr_right fun _ =>
    forall₂_congr fun c _ => isAlphaNum_iff c

/-- C3, counterexample: a project-votes query whose `cursor` field IS present
(with the empty string, a value the declared `z.optional(z.string())` field
type accepts) and whose `startDate` is absent is nevertheless rejected,
because the refinement `data.cursor || data.startDate` uses JS truthiness and
the empty string is falsy. This refutes the claim that presence of either
field suffices for acceptance. -/
theorem claim_C3_counterexample :
    isOkE (GetProjectVotesQuerySchema [] (.obj [("cursor", .str "")])) = false := rfl

/-- C3, amended: a project-votes query with only these two optional fields is
accepted iff `startDate` is present (with a valid ISO date) or `cursor` is
present with a non-empty string; in particular it is rejected when both are
absent, and also when `cursor` is present but empty and `startDate` absent. -/
theorem claim_C3_amended (c d : Option String)
    (hd : ∀ t, d = some t → isoDateCheck t = true) :
    isOkE (GetProjectVotesQuerySchema []
        (.obj (optStrField "cursor" c ++ optStrField "startDate" d))) = true ↔
      (d ≠ none ∨ ∃ cs, c = some cs ∧ cs ≠ "") := by
  cases c with
  | none =>
    cases d with
    | none =>
      simp only [optStrField, List.nil_append]
      rw [show isOkE (GetProjectVotesQuerySchema [] (.obj [])) = false from rfl]
      simp
    | some t =>
      have hdt := hd t rfl
      simp only [optStrField, List.nil_append]
      rw [show isOkE (GetProjectVotesQuerySchema [] (.obj [("startDate", .str t)])) =
          true from by
        simp [GetProjectVotesQuerySchema, withCheck, pObject, GetProjectVotesQuerySchemaFields,
          runFields, runField, fieldResult, lookupField, pString, ISO8601DateSchema,
          pStringCheck, hdt, cursorStartDatePred, jsTruthy, isoDateCheck_ne_empty t hdt, isOkE]]
      simp
  | some cs =>
    cases d with
    | none =>
      simp only [optStrField, List.append_nil]
      by_cases hcs : cs.isEmpty = true
      · obtain rfl := (String.isEmpty_iff cs).mp hcs
        rw [show isOkE (GetProjectVotesQuerySchema [] (.obj [("cursor", .str "")])) =
          false from rfl]
        simp
      · have hf : cs.isEmpty = false := by simpa using hcs
        have hne : cs ≠ "" := fun he => by
          rw [he] at hf
          exact absurd hf (by decide)
        rw [show isOkE (GetProjectVotesQuerySchema [] (.obj [("cursor", .str cs)])) =
            true from by
          simp [GetProjectVotesQuerySchema, withCheck, pObject, GetProjectVotesQuerySchemaFields,
            runFields, runField, fieldResult, lookupField, pString, ISO8601DateSchema,
            pStringCheck, cursorStartDatePred, jsTruthy, hf, isOkE]]
        simp [hne]
    | some t =>
      have hdt := hd t rfl
      simp only [optStrField]
      rw [show isOkE (GetProjectVotesQuerySchema []
          (.obj ([("cursor", .str cs)] ++ [("startDate", .str t)]))) = true from by
        simp [GetProjectVotesQuerySchema, withCheck, pObject, GetProjectVotesQuerySchemaFields,
          runFields, runField, fieldResult, lookupField, pString, ISO8601DateSchema,
          pStringCheck, hdt, cursorStartDatePred, jsTruthy, isoDateCheck_ne_empty t hdt, isOkE]]
      simp

/-- C3, witness: the amended claim instantiated at a query carrying only a
valid `startDate`. -/
theorem claim_C3_witness :
    isOkE (GetProjectVotesQuerySchema []
        (.obj (optStrField "cursor" none ++ optStrField "startDate" (some "2024-05-01")))) =
      true :=
  (claim_C3_amended none (some "2024-05-01")
    (fun t ht => by cases ht; decide)).mpr (Or.inl (by simp))

/-- A violated field rule rejects the whole record, and the field's issue
appears in the aggregated error set of the record validator. -/
theorem pObject_reject_field (fs : List FieldSpec) (o : List (String × Json))
    (f : FieldSpec) (hf : f ∈ fs) (i : Issue)
    (hi : i ∈ errorsOf (runField [] o f)) :
    isOkE (pObject fs [] (.obj o)) = false ∧ i ∈ errorsOf (pObject fs [] (.obj o)) := by
  have hall := runFields_mem_issue [] o fs f hf i hi
  have hmem2 : i ∈ errorsOf (pObject fs [] (.obj o)) := by
    rw [pObject_errorsOf]
    exact hall
  exact ⟨isOkE_false_of_mem _ i hmem2, hmem2⟩

/-- C1: a webhook payload whose `type` field holds none of the four accepted
v1 tag literals (also when it is missing or not a string) is rejected by the
discriminated union with an unknown-variant issue naming the received value
and listing the accepted tag literals; it is never accepted. -/
theorem claim_C1_unknown_variant_rejected (o : List (String × Json))
    (h : ∀ t ∈ webhookAcceptedTags, lookupField o "type" ≠ some (.str t)) :
    WebhookPayloadSchema [] (.obj o) =
      .error [⟨[.key "type"],
        .unknownVariant (lookupField o "type") webhookAcceptedTags⟩] := by
  rw [WebhookPayloadSchema_eq_pDUnion,
    show pDUnion "type" webhookVariants [] (.obj o) =
      unionDispatch [] "type" webhookVariants o (lookupField o "type") from rfl]
  cases hl : lookupField o "type" with
  | none =>
    rw [unionDispatch_not_str [] "type" webhookVariants o none (by simp)]
    simp [webhookVariants, webhookAcceptedTags]
  | some j =>
    cases j with
    | str tag =>
      have hmem : tag ∉ webhookVariants.map (fun x => x.1) := by
        intro hm
        simp only [webhookVariants, List.map_cons, List.map_nil, List.mem_cons,
          List.not_mem_nil, or_false] at hm
        rcases hm with rfl | rfl | rfl | rfl
        · exact absurd hl (h "integration.create" (by decide))
        · exact absurd hl (h "integration.delete" (by decide))
        · exact absurd hl (h "vote.create" (by decide))
        · exact absurd hl (h "webhook.test" (by decide))
      rw [show unionDispatch [] "type" webhookVariants o (some (.str tag)) =
          applyVariant [] "type" (some (.str tag)) (webhookVariants.map (fun x => x.1)) o
            (findVariant tag webhookVariants) from rfl,
        findVariant_not_mem tag webhookVariants hmem,
        show applyVariant [] "type" (some (.str tag)) (webhookVariants.map (fun x => x.1)) o
            none =
          .error [⟨[] ++ [.key "type"],
            .unknownVariant (some (.str tag)) (webhookVariants.map (fun x => x.1))⟩] from rfl]
      simp [webhookVariants, webhookAcceptedTags]
    | null =>
      rw [unionDispatch_not_str [] "type" webhookVariants o _ (by simp)]
      simp [webhookVariants, webhookAcceptedTags]
    | bool b =>
      rw [unionDispatch_not_str [] "type" webhookVariants o _ (by simp)]
      simp [webhookVariants, webhookAcceptedTags]
    | num q =>
      rw [unionDispatch_not_str [] "type" webhookVariants o _ (by simp)]
      simp [webhookVariants, webhookAcceptedTags]
    | arr xs =>
      rw [unionDispatch_not_str [] "type" webhookVariants o _ (by simp)]
      simp [webhookVariants, webhookAcceptedTags]
    | obj o2 =>
      rw [unionDispatch_not_str [] "type" webhookVariants o _ (by simp)]
      simp [webhookVariants, webhookAcceptedTags]

/-- C1, witness: the payload `{type: "unknown.event"}` is rejected with the
unknown-variant issue listing the four accepted v1 type literals. -/
theorem claim_C1_witness :
    WebhookPayloadSchema [] (.obj [("type", .str "unknown.event")]) =
      .error [⟨[.key "type"],
        .unknownVariant (some (.str "unknown.event")) webhookAcceptedTags⟩] :=
  claim_C1_unknown_variant_rejected [("type", .str "unknown.event")] (by
    intro t ht heq
    rw [show lookupField [("type", Json.str "unknown.event")] "type" =
      some (.str "unknown.event") from rfl] at heq
    obtain rfl := Json.str.inj (Option.some.inj heq)
    exact absurd ht (by decide))

/-- C10: the v1 integration-create and integration-delete data validators
accept `connection_id` only in Snowflake format (17-21 ASCII digits): with any
other string there (such as a UUID) the whole record is rejected, whatever the
other fields hold, even though the compile-time type of `connection_id` is the
unrestricted `string`; a 17-digit `connection_id` is accepted by the delete
validator. -/
theorem claim_C10_connection_id_snowflake (o : List (String × Json)) (s : String)
    (h1 : lookupField o "connection_id" = some (.str s))
    (h2 : snowflakeCheck s = false) :
    isOkE (IntegrationCreateDataSchema [] (.obj o)) = false ∧
    isOkE (IntegrationDeleteDataSchema [] (.obj o)) = false ∧
    isOkE (IntegrationDeleteDataSchema []
      (.obj [("connection_id", .str "12345678901234567")])) = true := by
  have hsf : SnowflakeSchema ([] ++ [PathElem.key "connection_id"]) (.str s) =
      .error [⟨[] ++ [PathElem.key "connection_id"], .invalidFormat "snowflake" s⟩] := by
    simp [SnowflakeSchema, pStringCheck, h2]
  have hrf : runField [] o ⟨"connection_id", false, SnowflakeSchema⟩ =
      .error [⟨[] ++ [PathElem.key "connection_id"], .invalidFormat "snowflake" s⟩] :=
    runField_some_error_eq [] o _ (.str s) _ h1 hsf
  have hmem : (⟨[] ++ [PathElem.key "connection_id"],
      IssueKind.invalidFormat "snowflake" s⟩ : Issue) ∈
      errorsOf (runField [] o ⟨"connection_id", false, SnowflakeSchema⟩) := by
    rw [hrf]
    exact List.Mem.head _
  refine ⟨?_, ?_, rfl⟩
  · exact (pObject_reject_field IntegrationCreateDataSchemaFields o _
      (by simp [IntegrationCreateDataSchemaFields]) _ hmem).1
  · exact (pObject_reject_field IntegrationDeleteDataSchemaFields o _
      (by simp [IntegrationDeleteDataSchemaFields]) _ hmem).1

/-- C10, witness: a UUID `connection_id` is rejected by both integration data
validators; a 17-digit one is accepted by the delete validator. -/
theorem claim_C10_witness :
    isOkE (IntegrationCreateDataSchema []
      (.obj [("connection_id", .str "123e4567-e89b-12d3-a456-426614174000")])) = false ∧
    isOkE (IntegrationDeleteDataSchema []
      (.obj [("connection_id", .str "123e4567-e89b-12d3-a456-426614174000")])) = false ∧
    isOkE (IntegrationDeleteDataSchema []
      (.obj [("connection_id", .str "12345678901234567")])) = true :=
  claim_C10_connection_id_snowflake _ "123e4567-e89b-12d3-a456-426614174000" rfl (by decide)

/-- C9: the v1 user record validator is all-or-nothing: whenever any field of
the shape violates its rule on a given input object, the whole record is
rejected (never partially accepted), the violated rule's issue (field path
plus reason) appears in the aggregated structured error set, and that error
set is nonempty. -/
theorem claim_C9_all_or_nothing_aggregation (o : List (String × Json))
    (f : FieldSpec) (i : Issue) (hf : f ∈ UserSchemaFields)
    (hi : i ∈ errorsOf (runField [] o f)) :
    isOkE (UserSchema [] (.obj o)) = false ∧
    i ∈ errorsOf (UserSchema [] (.obj o)) ∧
    errorsOf (UserSchema [] (.obj o)) ≠ [] := by
  have h := pObject_reject_field UserSchemaFields o f hf i hi
  exact ⟨h.1, h.2, List.ne_nil_of_mem h.2⟩

/-- C9, witness: a user object whose `id` is not a Snowflake is rejected as a
whole, with the `id` format issue in the error set. -/
theorem claim_C9_witness :
    isOkE (UserSchema [] (.obj [("id", .str "123")])) = false ∧
    (⟨[PathElem.key "id"], .invalidFormat "snowflake" "123"⟩ : Issue) ∈
      errorsOf (UserSchema [] (.obj [("id", .str "123")])) ∧
    errorsOf (UserSchema [] (.obj [("id", .str "123")])) ≠ [] :=
  claim_C9_all_or_nothing_aggregation [("id", .str "123")]
    ⟨"id", false, SnowflakeSchema⟩ _ (by simp [UserSchemaFields]) (List.Mem.head _)

/-- C7: a webhook payload whose `type` is the literal `vote.create` is
dispatched to the vote-create variant schema and to no other (the union result
IS the vote-create variant's result); and when its `data` object lacks the
required `created_at` field, validation fails with an issue citing the path
`data.created_at`. -/
theorem claim_C7_vote_create_dispatch_missing_field (o d : List (String × Json))
    (h1 : lookupField o "type" = some (.str "vote.create"))
    (h2 : lookupField o "data" = some (.obj d))
    (h3 : lookupField d "created_at" = none) :
    WebhookPayloadSchema [] (.obj o) = VoteCreateWebhookPayloadSchema [] (.obj o) ∧
    isOkE (WebhookPayloadSchema [] (.obj o)) = false ∧
    (⟨[.key "data", .key "created_at"], .missingField⟩ : Issue) ∈
      errorsOf (WebhookPayloadSchema [] (.obj o)) := by
  have hdisp : WebhookPayloadSchema [] (.obj o) =
      VoteCreateWebhookPayloadSchema [] (.obj o) := by
    rw [WebhookPayloadSchema_eq_pDUnion,
      show pDUnion "type" webhookVariants [] (.obj o) =
        unionDispatch [] "type" webhookVariants o (lookupField o "type") from rfl, h1]
    rfl
  have hmemf : (⟨"created_at", false, ISO8601DateSchema⟩ : FieldSpec) ∈
      VoteCreateDataSchemaFields := by
    simp [VoteCreateDataSchemaFields, VoteSchemaFields]
  have hi1 : (⟨[PathElem.key "data", PathElem.key "created_at"],
      IssueKind.missingField⟩ : Issue) ∈
      errorsOf (runField [PathElem.key "data"] d ⟨"created_at", false, ISO8601DateSchema⟩) :=
    runField_missing_mem [PathElem.key "data"] d _ h3 rfl
  have hi2 : (⟨[PathElem.key "data", PathElem.key "created_at"],
      IssueKind.missingField⟩ : Issue) ∈
      errorsOf (VoteCreateDataSchema [PathElem.key "data"] (.obj d)) := by
    rw [show VoteCreateDataSchema [PathElem.key "data"] (.obj d) =
      pObject VoteCreateDataSchemaFields [PathElem.key "data"] (.obj d) from rfl,
      pObject_errorsOf]
    exact runFields_mem_issue _ d VoteCreateDataSchemaFields _ hmemf _ hi1
  have hi3 : (⟨[PathElem.key "data", PathElem.key "created_at"],
      IssueKind.missingField⟩ : Issue) ∈
      errorsOf (runField [] o ⟨"data", false, VoteCreateDataSchema⟩) :=
    runField_mem_issue [] o _ (.obj d) h2 _ hi2
  have hmemdf : (⟨"data", false, VoteCreateDataSchema⟩ : FieldSpec) ∈
      WebhookPayloadBaseSchema "vote.create" VoteCreateDataSchema := by
    simp [WebhookPayloadBaseSchema]
  have hi4 : (⟨[PathElem.key "data", PathElem.key "created_at"],
      IssueKind.missingField⟩ : Issue) ∈
      errorsOf (VoteCreateWebhookPayloadSchema [] (.obj o)) := by
    rw [show VoteCreateWebhookPayloadSchema [] (.obj o) =
      pObject (WebhookPayloadBaseSchema "vote.create" VoteCreateDataSchema) [] (.obj o)
      from rfl, pObject_errorsOf]
    exact runFields_mem_issue [] o _ _ hmemdf _ hi3
  rw [hdisp]
  exact ⟨rfl, isOkE_false_of_mem _ _ hi4, hi4⟩

/-- C7, witness: the payload `{type: "vote.create", data: {}}` goes to the
vote-create variant and is rejected with an issue at `data.created_at`. -/
theorem claim_C7_witness :
    WebhookPayloadSchema [] (.obj [("type", .str "vote.create"), ("data", .obj [])]) =
      VoteCreateWebhookPayloadSchema []
        (.obj [("type", .str "vote.create"), ("data", .obj [])]) ∧
    isOkE (WebhookPayloadSchema []
      (.obj [("type", .str "vote.create"), ("data", .obj [])])) = false ∧
    (⟨[.key "data", .key "created_at"], .missingField⟩ : Issue) ∈
      errorsOf (WebhookPayloadSchema []
        (.obj [("type", .str "vote.create"), ("data", .obj [])])) :=
  claim_C7_vote_create_dispatch_missing_field _ [] rfl rfl rfl

/-- C2: the `routes` field of the integration-create response validator checks
its elements against the integration *event* enum
(`integration.create` / `integration.delete`), contradicting the declared
compile-time type `WebhookEventType[]` (the scopes `webhook.test` /
`vote.create`): the duplicate-free singleton `["webhook.test"]` of webhook
scopes is rejected with an enum-membership issue instead of being accepted,
and the duplicate check never even runs on it. -/
theorem claim_C2_routes_enum_mismatch :
    isOkE (IntegrationCreateResponseSchema []
      (.obj [("webhook_url", .str "https://example.com/hook"),
             ("routes", .arr [.str "webhook.test"])])) = false ∧
    errorsOf (IntegrationCreateResponseSchema []
      (.obj [("webhook_url", .str "https://example.com/hook"),
             ("routes", .arr [.str "webhook.test"])])) =
      [⟨[.key "routes", .idx 0],
        .invalidValue "webhook.test" ["integration.create", "integration.delete"]⟩] ∧
    isOkE (IntegrationCreateResponseSchema []
      (.obj [("webhook_url", .str "https://example.com/hook"),
             ("routes", .arr [.str "integration.create", .str "integration.create"])])) =
      false ∧
    errorsOf (IntegrationCreateResponseSchema []
      (.obj [("webhook_url", .str "https://example.com/hook"),
             ("routes", .arr [.str "integration.create", .str "integration.create"])])) =
      [⟨[.key "routes"], .custom "Duplicate webhook scopes are not allowed"⟩] ∧
    isOkE (IntegrationCreateResponseSchema []
      (.obj [("webhook_url", .str "https://example.com/hook"),
             ("routes", .arr [.str "integration.create", .str "integration.delete"])])) =
      true :=
  ⟨rfl, rfl, rfl, rfl, rfl⟩

theorem votedSchema_eval_num0 (path : Path) : votedSchema path (.num 0) = .ok (.num 0) := by
  have e0 : pLiteralNum 0 path (.num 0) = .ok (.num 0) := by
    simp [pLiteralNum]
  have e1 : pLiteralNum 1 path (.num 0) = .error [⟨path, .invalidLiteralNum 0 1⟩] := by
    simp only [pLiteralNum]
    rw [if_neg (by norm_num)]
  unfold votedSchema pXor
  rw [e0, e1]

theorem votedSchema_eval_num1 (path : Path) : votedSchema path (.num 1) = .ok (.num 1) := by
  have e0 : pLiteralNum 0 path (.num 1) = .error [⟨path, .invalidLiteralNum 1 0⟩] := by
    simp only [pLiteralNum]
    rw [if_neg (by norm_num)]
  have e1 : pLiteralNum 1 path (.num 1) = .ok (.num 1) := by
    simp [pLiteralNum]
  unfold votedSchema pXor
  rw [e0, e1]

theorem votedSchema_eval_other (path : Path) (v : Json)
    (h0 : v ≠ .num 0) (h1 : v ≠ .num 1) : isOkE (votedSchema path v) = false := by
  cases v with
  | num q =>
    have hq0 : ¬(q = (0 : Rat)) := fun he => h0 (by rw [he])
    have hq1 : ¬(q = (1 : Rat)) := fun he => h1 (by rw [he])
    have e0 : pLiteralNum 0 path (.num q) = .error [⟨path, .invalidLiteralNum q 0⟩] := by
      simp only [pLiteralNum]
      rw [if_neg hq0]
    have e1 : pLiteralNum 1 path (.num q) = .error [⟨path, .invalidLiteralNum q 1⟩] := by
      simp only [pLiteralNum]
      rw [if_neg hq1]
    unfold votedSchema pXor
    rw [e0, e1]
    rfl
  | null => rfl
  | bool b => rfl
  | str s => rfl
  | arr xs => rfl
  | obj o2 => rfl

/-- C5: the vote-check response validator accepts the `voted` field exactly
when it is the number 0 or the number 1: any other number, any boolean and
any other JSON value there (or a missing field) is rejected. -/
theorem claim_C5_voted_exactly_zero_or_one (o : List (String × Json)) :
    isOkE (GetUserVoteCheckResponseSchema [] (.obj o)) = true ↔
      (lookupField o "voted" = some (.num 0) ∨ lookupField o "voted" = some (.num 1)) := by
  cases hl : lookupField o "voted" with
  | none =>
    have hrf : runField [] o ⟨"voted", false, votedSchema⟩ =
        .error [⟨[] ++ [PathElem.key "voted"], .missingField⟩] := by
      rw [runField_none_eq [] o _ hl]
      rfl
    have herr : GetUserVoteCheckResponseSchema [] (.obj o) =
        .error [⟨[] ++ [PathElem.key "voted"], .missingField⟩] := by
      unfold GetUserVoteCheckResponseSchema
      rw [pObject_obj_eq]
      unfold runFields
      rw [hrf]
      rfl
    rw [herr]
    simp [isOkE]
  | some v =>
    by_cases hv0 : v = Json.num 0
    · subst hv0
      have hrf := runField_some_ok_eq [] o ⟨"voted", false, votedSchema⟩ (.num 0) (.num 0)
        hl (votedSchema_eval_num0 ([] ++ [PathElem.key "voted"]))
      have hok : GetUserVoteCheckResponseSchema [] (.obj o) =
          .ok (.obj [("voted", .num 0)]) := by
        unfold GetUserVoteCheckResponseSchema
        rw [pObject_obj_eq]
        unfold runFields
        rw [hrf]
        rfl
      rw [hok]
      simp [isOkE]
    · by_cases hv1 : v = Json.num 1
      · subst hv1
        have hrf := runField_some_ok_eq [] o ⟨"voted", false, votedSchema⟩ (.num 1) (.num 1)
          hl (votedSchema_eval_num1 ([] ++ [PathElem.key "voted"]))
        have hok : GetUserVoteCheckResponseSchema [] (.obj o) =
            .ok (.obj [("voted", .num 1)]) := by
          unfold GetUserVoteCheckResponseSchema
          rw [pObject_obj_eq]
          unfold runFields
          rw [hrf]
          rfl
        rw [hok]
        simp [isOkE]
      · have hof := votedSchema_eval_other ([] ++ [PathElem.key "voted"]) v hv0 hv1
        cases hvs : votedSchema ([] ++ [PathElem.key "voted"]) v with
        | ok u =>
          rw [hvs] at hof
          exact absurd hof (by simp [isOkE])
        | error es =>
          have hrf := runField_some_error_eq [] o ⟨"voted", false, votedSchema⟩ v es hl hvs
          have herr : GetUserVoteCheckResponseSchema [] (.obj o) = .error es := by
            unfold GetUserVoteCheckResponseSchema
            rw [pObject_obj_eq]
            unfold runFields
            rw [hrf]
            rfl
          rw [herr]
          simp [isOkE, hv0, hv1]

/-- C8: validation is idempotent on its own results: for the exported
validators embedded here (the Snowflake and ISO-date primitives, the v1
webhook payload union, the integration-create response, the project-votes
query and the v0 vote-check response), re-validating any accepted, normalized
output succeeds and returns that same output. -/
theorem claim_C8_idempotent_revalidation
    (w1 x1 w2 x2 w3 x3 w4 x4 w5 x5 w6 x6 : Json)
    (h1 : SnowflakeSchema [] w1 = .ok x1)
    (h2 : ISO8601DateSchema [] w2 = .ok x2)
    (h3 : WebhookPayloadSchema [] w3 = .ok x3)
    (h4 : IntegrationCreateResponseSchema [] w4 = .ok x4)
    (h5 : GetProjectVotesQuerySchema [] w5 = .ok x5)
    (h6 : GetUserVoteCheckResponseSchema [] w6 = .ok x6) :
    SnowflakeSchema [] x1 = .ok x1 ∧
    ISO8601DateSchema [] x2 = .ok x2 ∧
    WebhookPayloadSchema [] x3 = .ok x3 ∧
    IntegrationCreateResponseSchema [] x4 = .ok x4 ∧
    GetProjectVotesQuerySchema [] x5 = .ok x5 ∧
    GetUserVoteCheckResponseSchema [] x6 = .ok x6 :=
  ⟨idem_SnowflakeSchema [] w1 x1 h1, idem_ISO8601DateSchema [] w2 x2 h2,
   idem_WebhookPayloadSchema [] w3 x3 h3, idem_IntegrationCreateResponseSchema [] w4 x4 h4,
   idem_GetProjectVotesQuerySchema [] w5 x5 h5,
   idem_GetUserVoteCheckResponseSchema [] w6 x6 h6⟩

/-- C8, witness: concrete accepted values of the six validators re-validate
to themselves (the webhook payload is a full `webhook.test` event). -/
theorem claim_C8_witness :
    SnowflakeSchema [] (.str "12345678901234567") = .ok (.str "12345678901234567") ∧
    ISO8601DateSchema [] (.str "2024-05-01") = .ok (.str "2024-05-01") ∧
    WebhookPayloadSchema []
      (.obj [("type", .str "webhook.test"),
        ("data", .obj [
          ("user", .obj [("id", .str "12345678901234567"),
            ("platform_id", .str "76543210987654321"),
            ("name", .str "wumpus"),
            ("avatar_url", .str "https://example.com/a.png")]),
          ("project", .obj [("id", .str "12345678901234567"),
            ("platform", .str "discord"),
            ("platform_id", .str "76543210987654321"),
            ("type", .str "bot")])])]) =
      .ok (.obj [("type", .str "webhook.test"),
        ("data", .obj [
          ("user", .obj [("id", .str "12345678901234567"),
            ("platform_id", .str "76543210987654321"),
            ("name", .str "wumpus"),
            ("avatar_url", .str "https://example.com/a.png")]),
          ("project", .obj [("id", .str "12345678901234567"),
            ("platform", .str "discord"),
            ("platform_id", .str "76543210987654321"),
            ("type", .str "bot")])])]) ∧
    IntegrationCreateResponseSchema []
      (.obj [("webhook_url", .str "https://example.com/hook"),
             ("routes", .arr [.str "integration.create", .str "integration.delete"])]) =
      .ok (.obj [("webhook_url", .str "https://example.com/hook"),
             ("routes", .arr [.str "integration.create", .str "integration.delete"])]) ∧
    GetProjectVotesQuerySchema [] (.obj [("cursor", .str "abc")]) =
      .ok (.obj [("cursor", .str "abc")]) ∧
    GetUserVoteCheckResponseSchema [] (.obj [("voted", .num 1)]) =
      .ok (.obj [("voted", .num 1)]) :=
  claim_C8_idempotent_revalidation
    (.str "12345678901234567") _ (.str "2024-05-01") _
    (.obj [("type", .str "webhook.test"),
      ("data", .obj [
        ("user", .obj [("id", .str "12345678901234567"),
          ("platform_id", .str "76543210987654321"),
          ("name", .str "wumpus"),
          ("avatar_url", .str "https://example.com/a.png")]),
        ("project", .obj [("id", .str "12345678901234567"),
          ("platform", .str "discord"),
          ("platform_id", .str "76543210987654321"),
          ("type", .str "bot")])])]) _
    (.obj [("webhook_url", .str "https://example.com/hook"),
           ("routes", .arr [.str "integration.create", .str "integration.delete"])]) _
    (.obj [("cursor", .str "abc")]) _
    (.obj [("voted", .num 1)]) _
    rfl rfl rfl rfl rfl rfl

end TopggTypes
